import Mathlib

/-!
A shallow embedding of the distributor-management application of
`src/app.py` (a Streamlit front end over a Google-Sheets table), covering
the parts the verified claims touch: coordinate sanitisation and
validation, record loading, the create / edit / delete handlers, the map
filter pipeline and the span-based zoom computation.

Modelling conventions: Python floats are rationals (`ℚ`), `pd.NA` is
`Option.none`, spreadsheet calls that can raise are driven by explicit
success flags or `Except` values, and the Python string operations the
handlers use (`strip`, `replace`, `lower`, `upper`, `split`) are total
functions over `List Char` so that every definition evaluates inside the
kernel.  The character-class functions model the ASCII behaviour, which is
what the concrete inputs of this development exercise.
-/

/-- The fixed column set `COLUNAS` of the sheet (src/app.py:35). -/
def COLUNAS : List String :=
  ["Distribuidor", "Contato", "Email", "Estado", "Cidade", "Latitude", "Longitude"]

/-- A Python scalar as it can reach `to_float_safe`: `None`, a bool, an
int, a float (modelled as a rational) or a string.  Bools get a
constructor of their own because `to_float_safe` deliberately routes them
away from the numeric fast path. -/
inductive PyVal where
  | none
  | bool (b : Bool)
  | int (n : Int)
  | float (q : ℚ)
  | str (s : String)
deriving DecidableEq

/-- Python `str.strip()` over the character list: drop leading and trailing
whitespace. -/
def stripChars (cs : List Char) : List Char :=
  ((cs.dropWhile Char.isWhitespace).reverse.dropWhile Char.isWhitespace).reverse

/-- Python `str.strip()` at string level. -/
def pyStrip (s : String) : String := String.mk (stripChars s.data)

/-- Python `str.lower()` (ASCII model). -/
def pyLower (s : String) : String := String.mk (s.data.map Char.toLower)

/-- Python `str.upper()` (ASCII model). -/
def pyUpper (s : String) : String := String.mk (s.data.map Char.toUpper)

/-- The numeric value of a digit run, most significant digit first. -/
def natOfDigits (ds : List Char) : Nat :=
  ds.foldl (fun a c => a * 10 + (c.toNat - 48)) 0

/-- Scaling a mantissa by the ten power of an exponent whose sign is given
separately: the exact rational value of `mant * 10^(±e)`. -/
def applyExp (mant : ℚ) (neg : Bool) (e : Nat) : ℚ :=
  if neg then mant * mkRat 1 (10 ^ e) else mant * mkRat (10 ^ e) 1

/-- The optional exponent suffix of a Python float literal, once `e`/`E`
has been consumed: an optional sign and a nonempty digit run that reaches
the end of the input. -/
def parseExpDigits (mant : ℚ) (cs : List Char) : Option ℚ :=
  let neg : Bool := match cs with | '-' :: _ => true | _ => false
  let cs2 := match cs with | '+' :: r => r | '-' :: r => r | r => r
  let ds := cs2.takeWhile Char.isDigit
  let rest := cs2.dropWhile Char.isDigit
  if ds.isEmpty || !rest.isEmpty then Option.none
  else some (applyExp mant neg (natOfDigits ds))

/-- After the mantissa: end of input, or an exponent part. -/
def parseExpPart (mant : ℚ) : List Char → Option ℚ
  | [] => some mant
  | 'e' :: rest => parseExpDigits mant rest
  | 'E' :: rest => parseExpDigits mant rest
  | _ => Option.none

/-- The unsigned core of Python `float()` on a decimal literal:
`digits [. digits] [exp]` or `. digits [exp]`.  (The model covers the
decimal forms; `inf`, `nan`, digit underscores and hex floats are outside
the inputs this development reasons about.) -/
def pyFloatUnsigned (cs : List Char) : Option ℚ :=
  let ip := cs.takeWhile Char.isDigit
  let rest := cs.dropWhile Char.isDigit
  match rest with
  | '.' :: rest2 =>
      let fp := rest2.takeWhile Char.isDigit
      let rest3 := rest2.dropWhile Char.isDigit
      if ip.isEmpty && fp.isEmpty then Option.none
      else
        parseExpPart
          (mkRat (natOfDigits ip * 10 ^ fp.length + natOfDigits fp) (10 ^ fp.length))
          rest3
  | _ =>
      if ip.isEmpty then Option.none
      else parseExpPart (mkRat (natOfDigits ip) 1) rest

/-- Python `float(s)` on an already-stripped string: an optional sign and
the unsigned literal. -/
def pyFloat (cs : List Char) : Option ℚ :=
  match cs with
  | '+' :: r => pyFloatUnsigned r
  | '-' :: r => (pyFloatUnsigned r).map (fun q => -q)
  | r => pyFloatUnsigned r

/-- The string branch of `to_float_safe` (src/app.py:74-83): strip, reject
the empty string, turn every comma into a period, drop every space, then
parse; a parse failure yields `pd.NA`. -/
def cleanAndParse (s0 : String) : Option ℚ :=
  let s1 := stripChars s0.data
  if s1.isEmpty then Option.none
  else pyFloat ((s1.map (fun c => if c = ',' then '.' else c)).filter (fun c => c ≠ ' '))

/-- `to_float_safe` (src/app.py:69-83): `None` is absent; non-bool ints and
floats pass through as floats; everything else is stringified and goes
through the text pipeline. -/
def to_float_safe (x : PyVal) : Option ℚ :=
  match x with
  | .none => Option.none
  | .float q => some q
  | .int n => some (mkRat n 1)
  | .bool b => cleanAndParse (if b then "True" else "False")
  | .str s => cleanAndParse s

/-- `lat_lon_is_valid` (src/app.py:85-92): both coordinates present and
inside the closed bounding box lat ∈ [-35, 6], lon ∈ [-82, -30]. -/
def lat_lon_is_valid (lat lon : Option ℚ) : Bool :=
  match lat, lon with
  | some a, some b =>
      decide (-35 ≤ a) && decide (a ≤ 6) && decide (-82 ≤ b) && decide (b ≤ -30)
  | _, _ => false

/-- One raw sheet row as `get_all_records` hands it to `carregar_dados`:
the five text fields plus the raw coordinate cells. -/
structure RawRecord where
  distribuidor : String
  contato : String
  email : String
  estado : String
  cidade : String
  latitude : PyVal
  longitude : PyVal
deriving DecidableEq

/-- One sanitised record of the loaded dataframe. -/
structure Record where
  distribuidor : String
  contato : String
  email : String
  estado : String
  cidade : String
  latitude : Option ℚ
  longitude : Option ℚ
deriving DecidableEq

/-- The per-row effect of `carregar_dados` (src/app.py:124-131): each
coordinate cell goes through `to_float_safe`, then each column is range
checked on its own — a latitude outside [-35, 6] becomes absent and a
longitude outside [-82, -30] becomes absent, each independently of the
other column. -/
def sanitizeRow (r : RawRecord) : Record :=
  { distribuidor := r.distribuidor
    contato := r.contato
    email := r.email
    estado := r.estado
    cidade := r.cidade
    latitude :=
      match to_float_safe r.latitude with
      | some a => if -35 ≤ a ∧ a ≤ 6 then some a else Option.none
      | Option.none => Option.none
    longitude :=
      match to_float_safe r.longitude with
      | some b => if -82 ≤ b ∧ b ≤ -30 then some b else Option.none
      | Option.none => Option.none }

/-- `carregar_dados` (src/app.py:97-132) on a successfully fetched,
non-empty record list: every row is sanitised. -/
def carregar_dados (raw : List RawRecord) : List Record :=
  raw.map sanitizeRow

/-- An ASCII word character, the `\w` class of the source's regexes. -/
def isWordChar (c : Char) : Bool := c.isAlphanum || c == '_'

/-- A character of the class `[\w.-]`. -/
def isWordDotDash (c : Char) : Bool := isWordChar c || c == '.' || c == '-'

/-- `validar_telefone` (src/app.py:439-441): a full match of
`^\(\d{2}\) \d{4,5}-\d{4}$`. -/
def validar_telefone (tel : String) : Bool :=
  match tel.data with
  | '(' :: a :: b :: ')' :: ' ' :: rest =>
      let mid := rest.takeWhile Char.isDigit
      (a.isDigit && b.isDigit) &&
      (match rest.dropWhile Char.isDigit with
       | '-' :: tail =>
           (mid.length == 4 || mid.length == 5) && tail.length == 4 &&
             tail.all Char.isDigit
       | _ => false)
  | _ => false

/-- Splitting a character list at every occurrence of one character. -/
def splitOnChar (sep : Char) : List Char → List (List Char)
  | [] => [[]]
  | c :: rest =>
      if c = sep then [] :: splitOnChar sep rest
      else
        match splitOnChar sep rest with
        | h :: t => (c :: h) :: t
        | [] => [[c]]

/-- The `[\w.-]+\.\w+` tail of the email pattern: a nonempty trailing word
run, a period immediately before it, and a nonempty `[\w.-]+` part before
that period. -/
def emailDomainOk (cs : List Char) : Bool :=
  let r := cs.reverse
  let t := r.takeWhile isWordChar
  match r.dropWhile isWordChar with
  | '.' :: m => (!t.isEmpty) && (!m.isEmpty) && m.all isWordDotDash
  | _ => false

/-- `validar_email` (src/app.py:443-445): a full match of
`^[\w\.-]+@[\w\.-]+\.\w+$` — exactly one `@` (neither character class
accepts it), a nonempty `[\w.-]+` local part and a domain of shape
`[\w.-]+\.\w+`. -/
def validar_email (s : String) : Bool :=
  match splitOnChar '@' s.data with
  | [loc, dom] => (!loc.isEmpty) && loc.all isWordDotDash && emailDomainOk dom
  | _ => false

/-- `CAPITAIS_BRASILEIRAS` (src/app.py:202-208). -/
def CAPITAIS_BRASILEIRAS : List String :=
  ["Rio Branco-AC", "Maceió-AL", "Macapá-AP", "Manaus-AM", "Salvador-BA",
   "Fortaleza-CE", "Brasília-DF", "Vitória-ES", "Goiânia-GO", "São Luís-MA",
   "Cuiabá-MT", "Campo Grande-MS", "Belo Horizonte-MG", "Belém-PA",
   "João Pessoa-PB", "Curitiba-PR", "Recife-PE", "Teresina-PI",
   "Rio de Janeiro-RJ", "Natal-RN", "Porto Alegre-RS", "Boa Vista-RR",
   "Florianópolis-SC", "São Paulo-SP", "Aracaju-SE", "Palmas-TO"]

/-- `cidade_eh_capital` (src/app.py:209-210): membership of `cidade-uf` in
the capital list.  (The create handler never calls it.) -/
def cidade_eh_capital (cidade uf : String) : Bool :=
  CAPITAIS_BRASILEIRAS.contains (cidade ++ "-" ++ uf)

/-- The form fields of the create page. -/
structure CadastroInput where
  nome : String
  contato : String
  email : String
  estado : String
  cidades : List String
deriving DecidableEq

/-- What the "Adicionar Distribuidor" button produces: one of the four
validation failures, or the list of rows appended to the backing store. -/
inductive CadastroOutcome where
  | missingFields
  | invalidPhone
  | invalidEmail
  | duplicateName
  | appended (rows : List Record)
deriving DecidableEq

/-- The row the create and edit handlers build for one city: coordinates
come back from the geocoder, are sanitised, and an invalid pair is replaced
by a doubly absent one (src/app.py:475-482). -/
def buildRow (nome contato email estado cidade : String) (raw : PyVal × PyVal) :
    Record :=
  let lat_v := to_float_safe raw.1
  let lon_v := to_float_safe raw.2
  if lat_lon_is_valid lat_v lon_v then
    { distribuidor := nome, contato := contato, email := email, estado := estado,
      cidade := cidade, latitude := lat_v, longitude := lon_v }
  else
    { distribuidor := nome, contato := contato, email := email, estado := estado,
      cidade := cidade, latitude := Option.none, longitude := Option.none }

/-- The "Adicionar Distribuidor" handler (src/app.py:464-495), checks in
source order: all fields filled, phone format, email format, distributor
name not already present in the loaded dataframe; when every check passes,
one row per selected city is appended.  `coords` stands for the coordinate
lookup `obter_coordenadas` the handler calls per city. -/
def cadastroHandler (df : List Record) (coords : String → String → PyVal × PyVal)
    (inp : CadastroInput) : CadastroOutcome :=
  if (pyStrip inp.nome == "" || pyStrip inp.contato == "" || pyStrip inp.email == "" ||
      inp.estado == "" || inp.cidades.isEmpty) then .missingFields
  else if !validar_telefone (pyStrip inp.contato) then .invalidPhone
  else if !validar_email (pyStrip inp.email) then .invalidEmail
  else if (df.map Record.distribuidor).contains inp.nome then .duplicateName
  else
    .appended (inp.cidades.map (fun c =>
      buildRow inp.nome inp.contato inp.email inp.estado c (coords c inp.estado)))

/-- The geocode key for a (city, state) pair: case-folded city and
upper-cased state, joined with a separator that no city name contains. -/
def normKey (cidade uf : String) : String := pyLower cidade ++ "|" ++ pyUpper uf

/-- The session geocode cache and the number of external lookups issued so
far in the process lifetime.  A cache value of `Option.none` is a negative
entry: looked up, not resolvable. -/
structure GeoState where
  cache : List (String × Option (ℚ × ℚ))
  lookups : Nat
deriving DecidableEq

/-- Modelled from the spec: `obter_coordenadas` is called by the create and
edit handlers (src/app.py:476 and 531) but no definition of it appears in
the repository's files.  Following §4.2-§4.3 of the specification: the key
is the normalised (city, state) composite, the session cache is consulted
first and a hit short-circuits everything, a miss invokes the external
collaborator `ext` exactly once, an out-of-region result is discarded by
the validator, and the outcome — negative ones included — is written back
to the cache. -/
def obter_coordenadas (ext : String → String → Option (ℚ × ℚ))
    (cidade uf : String) (st : GeoState) : Option (ℚ × ℚ) × GeoState :=
  match List.lookup (normKey cidade uf) st.cache with
  | some v => (v, st)
  | Option.none =>
      let res :=
        match ext cidade uf with
        | some (la, lo) =>
            if lat_lon_is_valid (some la) (some lo) then some (la, lo) else Option.none
        | Option.none => Option.none
      (res, ⟨(normKey cidade uf, res) :: st.cache, st.lookups + 1⟩)

/-- The sidebar filter state of the map page. -/
structure MapaState where
  df : List Record
  estado_filtro : String
  distribuidores_selecionados : List String
  cidade_busca : String

/-- The distributor narrowing (src/app.py:652-653 and 704-705): applied
only when the selection is nonempty, as a membership test. -/
def applyDistFilter (sel : List String) (df : List Record) : List Record :=
  if sel.isEmpty then df else df.filter (fun r => sel.contains r.distribuidor)

/-- The state narrowing (src/app.py:649-650): exact match on the state
code, applied only when a state is selected. -/
def applyEstadoFilter (uf : String) (df : List Record) : List Record :=
  if uf == "" then df else df.filter (fun r => r.estado == uf)

/-- `df_filtro` (src/app.py:647-653): state filter, then distributor
filter. -/
def df_filtro (st : MapaState) : List Record :=
  applyDistFilter st.distribuidores_selecionados (applyEstadoFilter st.estado_filtro st.df)

/-- Splitting a character list at every occurrence of `" - "`, the way
Python's `split(" - ")` scans left to right. -/
def splitDash : List Char → List (List Char)
  | [] => [[]]
  | ' ' :: '-' :: ' ' :: rest => [] :: splitDash rest
  | c :: rest =>
      match splitDash rest with
      | h :: t => (c :: h) :: t
      | [] => [[c]]

/-- The direct city match (src/app.py:659-662): case-insensitive on the
city name and on the state code, over the full loaded dataframe. -/
def cityStateMatch (df : List Record) (cidade uf : String) : List Record :=
  df.filter (fun r =>
    pyLower r.cidade == pyLower cidade && pyUpper r.estado == pyUpper uf)

/-- `df_cidade` (src/app.py:656-664): the search text is split on `" - "`
into city and state; a text without exactly one separator raises in the
unpacking and the handler substitutes an empty frame. -/
def df_cidade (st : MapaState) : List Record :=
  match splitDash st.cidade_busca.data with
  | [c, uf] => cityStateMatch st.df (String.mk c) (String.mk uf)
  | _ => []

/-- `df_cidade_map` (src/app.py:703-705): the distributor filter applied
on top of the city match. -/
def df_cidade_map (st : MapaState) : List Record :=
  applyDistFilter st.distribuidores_selecionados (df_cidade st)

/-- The maximum of a coordinate list (`Series.max` on a nonempty series). -/
def listMax : List ℚ → ℚ
  | [] => 0
  | x :: xs => xs.foldl max x

/-- The minimum of a coordinate list (`Series.min` on a nonempty series). -/
def listMin : List ℚ → ℚ
  | [] => 0
  | x :: xs => xs.foldl min x

/-- The city-zoom computation (src/app.py:712-724): per-axis span, with the
floor 0.02 substituted when that axis's values all coincide, then the step
table 13 / 11 / 9 / 8 keyed on the combined span. -/
def cityZoom (lats lons : List ℚ) : Nat :=
  let lat_span := if listMax lats ≠ listMin lats then listMax lats - listMin lats else 0.02
  let lon_span := if listMax lons ≠ listMin lons then listMax lons - listMin lons else 0.02
  let span := max lat_span lon_span
  if span < 0.02 then 13
  else if span < 0.2 then 11
  else if span < 1 then 9
  else 8

/-- The two spreadsheet reads `find_row_index` performs, as fallible
values: the whole of column A, and one full row by 1-based index.  An
`Except.error` models the call raising. -/
structure WsRead where
  colValues : Except String (List String)
  rowValues : Nat → Except String (List String)

/-- The scan loop of `find_row_index` (src/app.py:162-173): walk column A
from sheet row 2; on a trimmed distributor match fetch the row, map it to
the column set, and compare city (case-insensitive) and state
(upper-cased); a raising row fetch is caught by the surrounding `except`
and turns the whole call into `None`. -/
def findRowGo (rowValues : Nat → Except String (List String))
    (dist cidade estado : String) : List String → Nat → Option Nat
  | [], _ => Option.none
  | v :: rest, idx =>
      if pyStrip v == pyStrip dist then
        match rowValues idx with
        | Except.error _ => Option.none
        | Except.ok row =>
            if pyLower (pyStrip (row.getD 4 "")) == pyLower (pyStrip cidade) &&
                pyUpper (pyStrip (row.getD 3 "")) == pyUpper (pyStrip estado) then
              some idx
            else findRowGo rowValues dist cidade estado rest (idx + 1)
      else findRowGo rowValues dist cidade estado rest (idx + 1)

/-- `find_row_index` (src/app.py:154-175): fetch column A (header
included), scan from row 2; every exception — the column fetch or any row
fetch raising — is caught and yields `None`, exactly like "no matching
row". -/
def find_row_index (ws : WsRead) (dist cidade estado : String) : Option Nat :=
  match ws.colValues with
  | Except.error _ => Option.none
  | Except.ok col => findRowGo ws.rowValues dist cidade estado (col.drop 1) 2

/-- The backing-store contents as `get_all_values` returns them: the header
row first when present, then one list of cells per record row. -/
structure Sheet where
  values : List (List String)
deriving DecidableEq

/-- Which of the delete handler's three spreadsheet calls succeed; `false`
models the call raising (communication failure). -/
structure DeleteOps where
  getOk : Bool
  clearOk : Bool
  updateOk : Bool
deriving DecidableEq

/-- The rows surviving a delete of `dist` (src/app.py:587): those whose
first cell, trimmed, differs from the distributor name. -/
def survivingRows (rows : List (List String)) (dist : String) : List (List String) :=
  rows.filter (fun r => !(!r.isEmpty && pyStrip (r.headD "") == dist))

/-- The "Excluir Distribuidor" handler (src/app.py:581-597): fetch all
values, keep header (or `COLUNAS` on an empty store) and surviving rows,
`clear()` the sheet, then write everything back in one `update`.  A raising
call is caught by the handler's `except`; the result pairs the store
contents afterwards with the success flag shown to the user. -/
def excluirHandler (dist : String) (s : Sheet) (ops : DeleteOps) : Sheet × Bool :=
  if !ops.getOk then (s, false)
  else
    let header := s.values.headD COLUNAS
    let rows_filtered := survivingRows s.values.tail dist
    if !ops.clearOk then (s, false)
    else if !ops.updateOk then (⟨[]⟩, false)
    else (⟨header :: rows_filtered⟩, true)

/-- The occurrence scan of the edit handler (src/app.py:546-557): the
1-based sheet indices of every row whose column-A value, trimmed, equals
the trimmed old distributor name.  The handler fetches each row's city and
state and then ignores them ("independentemente da cidade").  Positions
are 0-based here; position 0 is the header row, so record rows start at 1
(sheet row 2). -/
def occIndices (sheet : List (List String)) (dist : String) : List Nat :=
  ((List.range sheet.length).drop 1).filter
    (fun p => pyStrip ((sheet.getD p []).headD "") == pyStrip dist)

/-- The write loop of the edit handler (src/app.py:558-569): the i-th new
row overwrites the i-th collected occurrence in place while occurrences
remain, and is appended at the bottom once they run out. -/
def editLoop : List (List String) → List Nat → List (List String) → List (List String)
  | s, _, [] => s
  | s, p :: ps, n :: ns => editLoop (s.set p n) ps ns
  | s, [], n :: ns => editLoop (s ++ [n]) [] ns

/-- The "Salvar Alterações" write phase (src/app.py:545-569) on a sheet
whose spreadsheet calls all succeed: collect the occurrences of the old
distributor name, then run the write loop with the new rows. -/
def editarApply (sheet : List (List String)) (dist : String)
    (novas : List (List String)) : List (List String) :=
  editLoop sheet (occIndices sheet dist) novas

/-- A store with one distributor already assigned to the non-capital city
Ourinhos-SP. -/
def recOurinhos : Record :=
  { distribuidor := "Beta Ltda", contato := "(14) 99876-5432",
    email := "beta@exemplo.com", estado := "SP", cidade := "Ourinhos",
    latitude := Option.none, longitude := Option.none }

/-- The loaded dataframe holding `recOurinhos`. -/
def dfC1 : List Record := [recOurinhos]

/-- A geocoder stub that resolves nothing. -/
def coordsNone : String → String → PyVal × PyVal := fun _ _ => (PyVal.none, PyVal.none)

/-- A create attempt by a different distributor targeting the already
assigned city Ourinhos-SP. -/
def inpC1 : CadastroInput :=
  { nome := "Alfa Ltda", contato := "(11) 91234-5678", email := "alfa@exemplo.com",
    estado := "SP", cidades := ["Ourinhos"] }

/-- The row the create handler writes for `inpC1`. -/
def rowC1 : Record :=
  { distribuidor := "Alfa Ltda", contato := "(11) 91234-5678",
    email := "alfa@exemplo.com", estado := "SP", cidade := "Ourinhos",
    latitude := Option.none, longitude := Option.none }

/-- An external geocoder returning an in-region coordinate pair. -/
def geoExt1 : String → String → Option (ℚ × ℚ) := fun _ _ => some (1, -40)

/-- A second external geocoder that would now return a different value. -/
def geoExt2 : String → String → Option (ℚ × ℚ) := fun _ _ => some (2, -50)

/-- The first resolve call: lower-case city, lower-case state, empty cache. -/
def geoP1 : Option (ℚ × ℚ) × GeoState :=
  obter_coordenadas geoExt1 "Campinas" "sp" ⟨[], 0⟩

/-- The second resolve call: same city up to case, against the state left by
the first call, with the changed external collaborator. -/
def geoP2 : Option (ℚ × ℚ) × GeoState :=
  obter_coordenadas geoExt2 "CAMPINAS" "SP" geoP1.2

/-- A raw row whose latitude cell is valid and whose longitude cell is
empty. -/
def rawC3 : RawRecord :=
  { distribuidor := "Gama Ltda", contato := "(11) 91234-5678",
    email := "gama@exemplo.com", estado := "SP", cidade := "Ourinhos",
    latitude := PyVal.float 1, longitude := PyVal.str "" }

/-- What `carregar_dados` makes of `rawC3`: latitude kept, longitude
absent. -/
def recC3 : Record :=
  { distribuidor := "Gama Ltda", contato := "(11) 91234-5678",
    email := "gama@exemplo.com", estado := "SP", cidade := "Ourinhos",
    latitude := some 1, longitude := Option.none }

/-- A two-record store for the delete scenario. -/
def sheetC4 : Sheet :=
  ⟨[COLUNAS,
    ["Beta Ltda", "(14) 99876-5432", "beta@exemplo.com", "SP", "Ourinhos", "", ""],
    ["Alfa Ltda", "(11) 91234-5678", "alfa@exemplo.com", "SP", "Bauru", "", ""]]⟩

/-- A run in which the fetch and the clear succeed and the final write
raises. -/
def opsC4 : DeleteOps := ⟨true, true, false⟩

/-- A single valid coordinate: all points of each axis coincide. -/
def latsC6 : List ℚ := [1]

/-- The matching single longitude. -/
def lonsC6 : List ℚ := [-40]

/-- The sheet for the edit scenario: a header and three record rows, two of
them belonging to the edited distributor. -/
def sheetC10 : List (List String) :=
  [COLUNAS,
   ["Beta Ltda", "(14) 99876-5432", "beta@exemplo.com", "SP", "Ourinhos", "", ""],
   ["Alfa Ltda", "(11) 91234-5678", "alfa@exemplo.com", "SP", "Bauru", "", ""],
   ["Beta Ltda", "(14) 99876-5432", "beta@exemplo.com", "SP", "Marília", "", ""]]

/-- The single replacement row of the edit scenario: fewer new rows than
occurrences. -/
def novasC10 : List (List String) :=
  [["Beta Nova", "(14) 99876-5432", "beta@exemplo.com", "SP", "Assis", "", ""]]

/-- C7: `to_float_safe` is total and behaves as specified: numeric inputs
pass through as floats; text is stripped, commas become periods, internal
spaces are removed, and the result is parsed, so " -23,5 " yields -23.5;
the empty string, blank strings, non-numeric text and double-period text
all yield absent (and bools, which the code routes to the text path, are
unparseable).  No input raises: every case returns a value. -/
theorem to_float_safe_spec :
    (∀ q : ℚ, to_float_safe (.float q) = some q) ∧
    (∀ n : Int, to_float_safe (.int n) = some (n : ℚ)) ∧
    (∀ b : Bool, to_float_safe (.bool b) = Option.none) ∧
    to_float_safe PyVal.none = Option.none ∧
    to_float_safe (.str " -23,5 ") = some (-23.5 : ℚ) ∧
    to_float_safe (.str "-2 3, 5") = some (-23.5 : ℚ) ∧
    to_float_safe (.str "1e2") = some (100 : ℚ) ∧
    to_float_safe (.str "+.5") = some (0.5 : ℚ) ∧
    to_float_safe (.str "") = Option.none ∧
    to_float_safe (.str "   ") = Option.none ∧
    to_float_safe (.str "abc") = Option.none ∧
    to_float_safe (.str "1.2.3") = Option.none := by
  refine ⟨fun q => rfl, fun n => ?_, fun b => ?_, ?_, ?_, ?_, ?_, ?_, ?_, ?_, ?_, ?_⟩
  · show some (mkRat n 1) = some (n : ℚ)
    rw [Rat.mkRat_one]
  · cases b <;> with_unfolding_all decide
  all_goals with_unfolding_all decide

/-- C8: `lat_lon_is_valid` holds exactly when both coordinates are present
and lie in the closed box lat ∈ [-35, 6], lon ∈ [-82, -30]; all four
boundary combinations are valid. -/
theorem lat_lon_is_valid_spec :
    (∀ lat lon : Option ℚ,
      lat_lon_is_valid lat lon = true ↔
        ∃ a b, lat = some a ∧ lon = some b ∧
          -35 ≤ a ∧ a ≤ 6 ∧ -82 ≤ b ∧ b ≤ -30) ∧
    lat_lon_is_valid (some (-35)) (some (-82)) = true ∧
    lat_lon_is_valid (some (-35)) (some (-30)) = true ∧
    lat_lon_is_valid (some 6) (some (-82)) = true ∧
    lat_lon_is_valid (some 6) (some (-30)) = true := by
  refine ⟨fun lat lon => ?_, ?_, ?_, ?_, ?_⟩
  · cases lat with
    | none => simp [lat_lon_is_valid]
    | some a =>
        cases lon with
        | none => simp [lat_lon_is_valid]
        | some b => simp [lat_lon_is_valid, and_assoc]
  all_goals with_unfolding_all decide

/-- C1 counterexample: with Ourinhos-SP already assigned to Beta Ltda
(not a capital), a create attempt by Alfa Ltda targeting the same city
does not fail — the handler appends a row for it.  The handler has no
conflict outcome at all: the only checks are fields, phone, email and
duplicate name. -/
theorem cadastro_conflict_counterexample :
    (recOurinhos ∈ dfC1 ∧ recOurinhos.cidade = "Ourinhos" ∧
      recOurinhos.estado = inpC1.estado ∧
      recOurinhos.distribuidor ≠ inpC1.nome ∧
      "Ourinhos" ∈ inpC1.cidades ∧
      cidade_eh_capital "Ourinhos" "SP" = false) ∧
    cadastroHandler dfC1 coordsNone inpC1 = CadastroOutcome.appended [rowC1] ∧
    ([rowC1] : List Record) ≠ [] := by
  with_unfolding_all decide

/-- C1 (amended): the create handler performs no city-conflict check and
never consults `cidade_eh_capital`: whenever the field, phone, email and
duplicate-name checks pass, it appends exactly one row per selected city
under the new distributor's name, regardless of which cities the loaded
records already hold. -/
theorem cadastro_no_conflict_check (df : List Record)
    (coords : String → String → PyVal × PyVal) (inp : CadastroInput)
    (hfields : (pyStrip inp.nome == "" || pyStrip inp.contato == "" ||
        pyStrip inp.email == "" || inp.estado == "" || inp.cidades.isEmpty) = false)
    (hphone : validar_telefone (pyStrip inp.contato) = true)
    (hemail : validar_email (pyStrip inp.email) = true)
    (hdup : (df.map Record.distribuidor).contains inp.nome = false) :
    ∃ rows, cadastroHandler df coords inp = CadastroOutcome.appended rows ∧
      rows.length = inp.cidades.length ∧
      ∀ r ∈ rows, r.distribuidor = inp.nome ∧ r.cidade ∈ inp.cidades := by
  refine ⟨inp.cidades.map (fun c =>
    buildRow inp.nome inp.contato inp.email inp.estado c (coords c inp.estado)),
    ?_, by simp, ?_⟩
  · rw [cadastroHandler, hfields, hphone, hemail, hdup]
    simp
  · intro r hr
    rcases List.mem_map.mp hr with ⟨c, hc, rfl⟩
    constructor
    · rw [buildRow]
      split <;> rfl
    · rw [buildRow]
      split <;> simpa using hc

/-- C1 witness: the amended theorem applied to the concrete store and
create attempt of the counterexample scenario. -/
theorem cadastro_no_conflict_check_witness :
    ∃ rows, cadastroHandler dfC1 coordsNone inpC1 = CadastroOutcome.appended rows ∧
      rows.length = inpC1.cidades.length ∧
      ∀ r ∈ rows, r.distribuidor = inpC1.nome ∧ r.cidade ∈ inpC1.cidades :=
  cadastro_no_conflict_check dfC1 coordsNone inpC1 (by decide) (by decide)
    (by decide) (by decide)

/-- C3 counterexample: a loaded record can carry a present latitude next to
an absent longitude — the two columns are validated independently, so the
paired-coordinate invariant fails. -/
theorem carregar_dados_pairing_counterexample :
    carregar_dados [rawC3] = [recC3] ∧
    recC3.latitude.isSome = true ∧ recC3.longitude = Option.none := by
  with_unfolding_all decide

/-- C3 (amended): every coordinate `carregar_dados` returns is range
checked on its own column: a present latitude lies in [-35, 6] and a
present longitude lies in [-82, -30]; presence of one coordinate does not
imply presence of the other. -/
theorem carregar_dados_ranges_independent (raw : List RawRecord) (r : Record)
    (hr : r ∈ carregar_dados raw) :
    (∀ a, r.latitude = some a → -35 ≤ a ∧ a ≤ 6) ∧
    (∀ b, r.longitude = some b → -82 ≤ b ∧ b ≤ -30) := by
  rcases List.mem_map.mp hr with ⟨x, _, rfl⟩
  constructor
  · intro a ha
    simp only [sanitizeRow] at ha
    rcases h : to_float_safe x.latitude with _ | a0
    · rw [h] at ha
      exact absurd ha (by simp)
    · rw [h] at ha
      dsimp only at ha
      by_cases hb : -35 ≤ a0 ∧ a0 ≤ 6
      · rw [if_pos hb] at ha
        cases ha
        exact hb
      · rw [if_neg hb] at ha
        exact absurd ha (by simp)
  · intro b hb2
    simp only [sanitizeRow] at hb2
    rcases h : to_float_safe x.longitude with _ | b0
    · rw [h] at hb2
      exact absurd hb2 (by simp)
    · rw [h] at hb2
      dsimp only at hb2
      by_cases hb : -82 ≤ b0 ∧ b0 ≤ -30
      · rw [if_pos hb] at hb2
        cases hb2
        exact hb
      · rw [if_neg hb] at hb2
        exact absurd hb2 (by simp)

/-- C3 witness: the amended theorem applied to the record loaded from the
concrete raw row `rawC3`. -/
theorem carregar_dados_ranges_independent_witness :
    (∀ a, recC3.latitude = some a → -35 ≤ a ∧ a ≤ 6) ∧
    (∀ b, recC3.longitude = some b → -82 ≤ b ∧ b ≤ -30) :=
  carregar_dados_ranges_independent [rawC3] recC3 (by with_unfolding_all decide)

/-- C4 counterexample: when the fetch and the clear succeed but the final
write raises, the delete handler reports the failure with the backing
store left empty — neither the new row set nor the prior contents, so the
full-rewrite delete is not atomic. -/
theorem excluir_empty_store_counterexample :
    excluirHandler "Beta Ltda" sheetC4 opsC4 = (⟨[]⟩, false) ∧
    (⟨[]⟩ : Sheet).values ≠ sheetC4.values ∧
    (⟨[]⟩ : Sheet).values ≠
      sheetC4.values.headD COLUNAS :: survivingRows sheetC4.values.tail "Beta Ltda" := by
  with_unfolding_all decide

/-- C4 (amended): on success the store holds exactly the header plus the
surviving rows; on failure the caller is informed and the store holds
either its prior contents (the fetch or the clear raised first) or nothing
at all (the final write raised after the clear) — the clear-then-write
rewrite can leave the store empty, though never partially written. -/
theorem excluirHandler_outcomes (dist : String) (s : Sheet) (ops : DeleteOps) :
    ((excluirHandler dist s ops).2 = true →
      (excluirHandler dist s ops).1.values =
        s.values.headD COLUNAS :: survivingRows s.values.tail dist) ∧
    ((excluirHandler dist s ops).2 = false →
      (excluirHandler dist s ops).1.values = s.values ∨
        (excluirHandler dist s ops).1.values = []) := by
  rcases ops with ⟨g, c, u⟩
  cases g <;> cases c <;> cases u <;> simp [excluirHandler]

/-- C6 counterexample: a single valid coordinate pair — all points
coincide on both axes, so both ranges are at most 0.01 degrees — yet the
substituted floor span 0.02 is not strictly below the 0.02 breakpoint and
the computation returns zoom 11, the second tier, not the highest tier 13
of the step table. -/
theorem cityZoom_coincident_counterexample :
    listMax latsC6 - listMin latsC6 ≤ 0.01 ∧
    listMax lonsC6 - listMin lonsC6 ≤ 0.01 ∧
    latsC6 ≠ [] ∧ lonsC6 ≠ [] ∧
    lat_lon_is_valid (some 1) (some (-40)) = true ∧
    cityZoom latsC6 lonsC6 = 11 ∧ (11 : Nat) ≠ 13 := by
  with_unfolding_all decide

/-- C6 (amended): the highest tier 13 is returned exactly when the
effective span stays below 0.02, so for coordinate sets whose two ranges
are both positive and at most 0.01 degrees; when either axis's points all
coincide, the substituted floor 0.02 forces the combined span to 0.02 and
the result is zoom 11, the second tier. -/
theorem cityZoom_tiers (lats lons : List ℚ) :
    (0 < listMax lats - listMin lats → listMax lats - listMin lats ≤ 0.01 →
      0 < listMax lons - listMin lons → listMax lons - listMin lons ≤ 0.01 →
      cityZoom lats lons = 13) ∧
    ((listMax lats = listMin lats ∨ listMax lons = listMin lons) →
      listMax lats - listMin lats ≤ 0.01 → listMax lons - listMin lons ≤ 0.01 →
      cityZoom lats lons = 11) := by
  constructor
  · intro h1 h2 h3 h4
    have ha : listMax lats ≠ listMin lats := (sub_pos.mp h1).ne'
    have hb : listMax lons ≠ listMin lons := (sub_pos.mp h3).ne'
    have hsp : max (listMax lats - listMin lats) (listMax lons - listMin lons) <
        (0.02 : ℚ) :=
      max_lt (lt_of_le_of_lt h2 (by norm_num)) (lt_of_le_of_lt h4 (by norm_num))
    rw [cityZoom]
    rw [if_pos ha, if_pos hb, if_pos hsp]
  · intro h h2 h3
    rcases h with h | h
    · have hA : ¬ (listMax lats ≠ listMin lats) := by simpa using h
      by_cases hx : listMax lons = listMin lons
      · have hB : ¬ (listMax lons ≠ listMin lons) := by simpa using hx
        simp only [cityZoom, if_neg hA, if_neg hB, max_self]
        norm_num
      · have hlt : listMax lons - listMin lons < (0.02 : ℚ) :=
          lt_of_le_of_lt h3 (by norm_num)
        simp only [cityZoom, if_neg hA, if_pos hx, max_eq_left (le_of_lt hlt)]
        norm_num
    · have hB : ¬ (listMax lons ≠ listMin lons) := by simpa using h
      by_cases hx : listMax lats = listMin lats
      · have hA : ¬ (listMax lats ≠ listMin lats) := by simpa using hx
        simp only [cityZoom, if_neg hA, if_neg hB, max_self]
        norm_num
      · have hlt : listMax lats - listMin lats < (0.02 : ℚ) :=
          lt_of_le_of_lt h2 (by norm_num)
        simp only [cityZoom, if_pos hx, if_neg hB, max_eq_right (le_of_lt hlt)]
        norm_num

/-- C2: two resolve calls for the same (city, state) key — regardless of
letter case — issue at most one external lookup between them, and the
second call returns the first call's cached result and leaves the state
untouched, even though the external collaborator `ext2` of the second call
may differ from `ext1`. -/
theorem obter_coordenadas_at_most_one_lookup
    (ext1 ext2 : String → String → Option (ℚ × ℚ))
    (c1 u1 c2 u2 : String) (st st1 st2 : GeoState) (r1 r2 : Option (ℚ × ℚ))
    (hc : pyLower c2 = pyLower c1) (hu : pyUpper u2 = pyUpper u1)
    (h1 : obter_coordenadas ext1 c1 u1 st = (r1, st1))
    (h2 : obter_coordenadas ext2 c2 u2 st1 = (r2, st2)) :
    r2 = r1 ∧ st2 = st1 ∧ st1.lookups ≤ st.lookups + 1 := by
  have hkey : normKey c2 u2 = normKey c1 u1 := by
    rw [normKey, normKey, hc, hu]
  rw [obter_coordenadas] at h1 h2
  rw [hkey] at h2
  rcases hl : List.lookup (normKey c1 u1) st.cache with _ | v
  · rw [hl] at h1
    dsimp only at h1
    injection h1 with e1 e2
    subst e1
    subst e2
    simp only [List.lookup, beq_self_eq_true] at h2
    injection h2 with f1 f2
    subst f1
    subst f2
    exact ⟨rfl, rfl, le_refl _⟩
  · rw [hl] at h1
    dsimp only at h1
    injection h1 with e1 e2
    subst e1
    subst e2
    rw [hl] at h2
    dsimp only at h2
    injection h2 with f1 f2
    subst f1
    subst f2
    exact ⟨rfl, rfl, Nat.le_succ _⟩

/-- C2 witness: the theorem applied to a concrete pair of calls whose keys
differ only in case and whose external collaborators disagree. -/
theorem obter_coordenadas_at_most_one_lookup_witness :
    geoP2.1 = geoP1.1 ∧ geoP2.2 = geoP1.2 ∧
      geoP1.2.lookups ≤ (⟨[], 0⟩ : GeoState).lookups + 1 :=
  obter_coordenadas_at_most_one_lookup geoExt1 geoExt2 "Campinas" "sp"
    "CAMPINAS" "SP" ⟨[], 0⟩ geoP1.2 geoP2.2 geoP1.1 geoP2.1
    (by with_unfolding_all decide) (by with_unfolding_all decide) rfl rfl

/-- C5: the city-search result is computed from the full loaded record set
— it is invariant under the active state filter and distributor selection
— and a record belongs to it exactly when its city matches the query's
city case-insensitively and its state matches the query's state code
(also case-insensitively); the distributor filter is then applied on top
of the city match to produce the map subset. -/
theorem mapa_city_filter_spec (df : List Record) (uf1 uf2 : String)
    (sel1 sel2 : List String) (busca : String) :
    df_cidade ⟨df, uf1, sel1, busca⟩ = df_cidade ⟨df, uf2, sel2, busca⟩ ∧
    (∀ c u r, splitDash busca.data = [c, u] →
      (r ∈ df_cidade ⟨df, uf1, sel1, busca⟩ ↔
        r ∈ df ∧ pyLower r.cidade = pyLower (String.mk c) ∧
          pyUpper r.estado = pyUpper (String.mk u))) ∧
    df_cidade_map ⟨df, uf1, sel1, busca⟩ =
      applyDistFilter sel1 (df_cidade ⟨df, uf1, sel1, busca⟩) := by
  refine ⟨rfl, ?_, rfl⟩
  intro c u r h
  rw [df_cidade]
  dsimp only
  rw [h]
  simp [cityStateMatch, List.mem_filter, and_assoc]

/-- The scan loop yields not-found when every row fetch raises. -/
theorem findRowGo_all_error (dist cidade estado err : String) :
    ∀ (cs : List String) (idx : Nat),
      findRowGo (fun _ => Except.error err) dist cidade estado cs idx = Option.none := by
  intro cs
  induction cs with
  | nil => intro idx; rfl
  | cons v rest ih =>
      intro idx
      rw [findRowGo]
      by_cases h : (pyStrip v == pyStrip dist) = true
      · rw [if_pos h]
      · rw [if_neg h]
        exact ih (idx + 1)

/-- C9: every backing-store exception inside `find_row_index` is swallowed:
a raising column fetch gives `None`, a scan whose row fetches all raise
gives `None`, and both are indistinguishable from the genuine not-found of
an empty store. -/
theorem find_row_index_error_is_none (dist cidade estado err : String)
    (rowV : Nat → Except String (List String)) (col : List String) :
    find_row_index ⟨Except.error err, rowV⟩ dist cidade estado = Option.none ∧
    find_row_index ⟨Except.ok col, fun _ => Except.error err⟩ dist cidade estado =
      Option.none ∧
    find_row_index ⟨Except.ok [], rowV⟩ dist cidade estado = Option.none := by
  refine ⟨rfl, ?_, rfl⟩
  exact findRowGo_all_error dist cidade estado err (col.drop 1) 2

/-- With no occurrence left, the write loop appends every remaining new
row. -/
theorem editLoop_nil_occ (s ns : List (List String)) :
    editLoop s [] ns = s ++ ns := by
  induction ns generalizing s with
  | nil => simp [editLoop]
  | cons n ns ih =>
      simp only [editLoop]
      rw [ih]
      simp

/-- The write loop's output length: in-place overwrites keep the length,
then one appended row per surplus new row. -/
theorem editLoop_length (ns : List (List String)) :
    ∀ (ps : List Nat) (s : List (List String)),
      (editLoop s ps ns).length = s.length + (ns.length - ps.length) := by
  induction ns with
  | nil => intro ps s; simp [editLoop]
  | cons n ns ih =>
      intro ps s
      cases ps with
      | nil =>
          rw [editLoop_nil_occ]
          simp only [List.length_append, List.length_cons, List.length_nil]
          omega
      | cons p ps =>
          simp only [editLoop]
          rw [ih ps (s.set p n)]
          simp only [List.length_set, List.length_cons]
          omega

/-- Frame property of the write loop: a position of the original sheet that
is not among the first `|ns|` collected occurrences keeps its row. -/
theorem editLoop_getD_frame (ns : List (List String)) :
    ∀ (ps : List Nat) (s : List (List String)),
      ps.Pairwise (· < ·) → (∀ p ∈ ps, p < s.length) →
      ∀ q, q < s.length → q ∉ ps.take ns.length →
        (editLoop s ps ns).getD q [] = s.getD q [] := by
  induction ns with
  | nil => intro ps s _ _ q _ _; simp [editLoop]
  | cons n ns ih =>
      intro ps s hpair hb q hq hnot
      cases ps with
      | nil =>
          rw [editLoop_nil_occ]
          exact List.getD_append _ _ _ _ hq
      | cons p ps =>
          simp only [List.length_cons, List.take_succ_cons, List.mem_cons,
            not_or] at hnot
          simp only [editLoop]
          rw [ih ps (s.set p n) hpair.of_cons
            (fun x hx => by rw [List.length_set]; exact hb x (List.mem_cons_of_mem _ hx))
            q (by rw [List.length_set]; exact hq) hnot.2]
          rw [List.getD_eq_getElem?_getD, List.getElem?_set_ne (fun h => hnot.1 h.symm),
            ← List.getD_eq_getElem?_getD]

/-- Content property of the write loop: the i-th collected occurrence now
holds the i-th new row, while both lists reach that far. -/
theorem editLoop_getD_update (ns : List (List String)) :
    ∀ (ps : List Nat) (s : List (List String)),
      ps.Pairwise (· < ·) → (∀ p ∈ ps, p < s.length) →
      ∀ i, i < ns.length → i < ps.length →
        (editLoop s ps ns).getD (ps.getD i 0) [] = ns.getD i [] := by
  induction ns with
  | nil => intro ps s _ _ i hi _; exact absurd hi (by simp)
  | cons n ns ih =>
      intro ps s hpair hb i hi1 hi2
      cases ps with
      | nil => exact absurd hi2 (by simp)
      | cons p ps =>
          cases i with
          | zero =>
              simp only [editLoop, List.getD_cons_zero]
              have hp : p < s.length := hb p (List.mem_cons_self _ _)
              have hnotin : p ∉ ps.take ns.length := by
                intro hmem
                have := List.rel_of_pairwise_cons hpair (List.mem_of_mem_take hmem)
                omega
              rw [editLoop_getD_frame ns ps (s.set p n) hpair.of_cons
                (fun x hx => by rw [List.length_set]; exact hb x (List.mem_cons_of_mem _ hx))
                p (by rw [List.length_set]; exact hp) hnotin]
              rw [List.getD_eq_getElem?_getD, List.getElem?_set_self hp]
              rfl
          | succ i =>
              simp only [editLoop, List.getD_cons_succ]
              exact ih ps (s.set p n) hpair.of_cons
                (fun x hx => by rw [List.length_set]; exact hb x (List.mem_cons_of_mem _ hx))
                i (by simpa using hi1) (by simpa using hi2)

/-- Append property of the write loop: everything past the original length
is exactly the surplus new rows, in order. -/
theorem editLoop_drop (ns : List (List String)) :
    ∀ (ps : List Nat) (s : List (List String)),
      (∀ p ∈ ps, p < s.length) →
      (editLoop s ps ns).drop s.length = ns.drop ps.length := by
  induction ns with
  | nil => intro ps s _; simp [editLoop, List.drop_length]
  | cons n ns ih =>
      intro ps s hb
      cases ps with
      | nil =>
          rw [editLoop_nil_occ]
          simp [List.drop_left]
      | cons p ps =>
          simp only [editLoop, List.length_cons, List.drop_succ_cons]
          have := ih ps (s.set p n)
            (fun x hx => by rw [List.length_set]; exact hb x (List.mem_cons_of_mem _ hx))
          rw [List.length_set] at this
          exact this

/-- Membership in the record-row positions of a sheet. -/
theorem mem_drop_one_range (n p : Nat) :
    p ∈ (List.range n).drop 1 ↔ 1 ≤ p ∧ p < n := by
  cases n with
  | zero => simp
  | succ m =>
      rw [List.range_succ_eq_map, List.drop_succ_cons, List.drop_zero]
      simp only [List.mem_map, List.mem_range]
      constructor
      · rintro ⟨q, hq, rfl⟩
        omega
      · rintro ⟨h1, h2⟩
        exact ⟨p - 1, by omega, by omega⟩

/-- The collected occurrences are exactly the record-row positions whose
column-A value, trimmed, equals the trimmed old distributor name — city
and state play no part. -/
theorem occIndices_mem (sheet : List (List String)) (dist : String) (p : Nat) :
    p ∈ occIndices sheet dist ↔
      1 ≤ p ∧ p < sheet.length ∧
        pyStrip ((sheet.getD p []).headD "") = pyStrip dist := by
  rw [occIndices, List.mem_filter, mem_drop_one_range]
  simp [and_assoc]

/-- The collected occurrences are strictly increasing. -/
theorem occIndices_pairwise (sheet : List (List String)) (dist : String) :
    (occIndices sheet dist).Pairwise (· < ·) :=
  (List.Pairwise.sublist (List.drop_sublist 1 _) (List.pairwise_lt_range _)).filter _

/-- C10: the edit rewrite is keyed on the distributor column alone: a
position is collected exactly when its column-A value matches the old
name, trimmed, regardless of city and state; the i-th collected occurrence
is overwritten in place with the i-th new row; every other position —
surplus old occurrences included — keeps its previous row; and the surplus
new rows are appended at the bottom in order. -/
theorem editar_overwrite_frame_spec (sheet : List (List String)) (dist : String)
    (novas : List (List String)) :
    (∀ p, p ∈ occIndices sheet dist ↔
      1 ≤ p ∧ p < sheet.length ∧
        pyStrip ((sheet.getD p []).headD "") = pyStrip dist) ∧
    (∀ p, p < sheet.length → p ∉ (occIndices sheet dist).take novas.length →
      (editarApply sheet dist novas).getD p [] = sheet.getD p []) ∧
    (∀ i, i < novas.length → i < (occIndices sheet dist).length →
      (editarApply sheet dist novas).getD ((occIndices sheet dist).getD i 0) [] =
        novas.getD i []) ∧
    (editarApply sheet dist novas).length =
      sheet.length + (novas.length - (occIndices sheet dist).length) ∧
    (editarApply sheet dist novas).drop sheet.length =
      novas.drop (occIndices sheet dist).length := by
  have hb : ∀ p ∈ occIndices sheet dist, p < sheet.length :=
    fun p hp => ((occIndices_mem sheet dist p).mp hp).2.1
  have hpair := occIndices_pairwise sheet dist
  refine ⟨occIndices_mem sheet dist, ?_, ?_, ?_, ?_⟩
  · intro p hp hnot
    exact editLoop_getD_frame novas (occIndices sheet dist) sheet hpair hb p hp hnot
  · intro i hi1 hi2
    exact editLoop_getD_update novas (occIndices sheet dist) sheet hpair hb i hi1 hi2
  · exact editLoop_length novas (occIndices sheet dist) sheet
  · exact editLoop_drop novas (occIndices sheet dist) sheet hb
